import Mathlib

/-!
Verification of the halo2 Fibonacci example circuit (`src/fib.rs`).

The file embeds the repository's circuit construction shallowly: the
constraint-system shape built by `FibChip::configure`, the region
assignments performed by `FibChip::assign_first_row`,
`FibChip::assign_next_row` and `FibChip::expose_public`, and the driver
`FibCircuit::synthesize`.  State that the Rust code threads through the
halo2 `Layouter` is made explicit: an `Assignment` records advice values,
selector enablings, copy-constraints and public-input bindings, and a
`Layouter` additionally tracks the row offset at which the single-pass
floor planner places the next region (each region here spans two rows).

The external checker (halo2's `MockProver`, which is not part of this
repository) is modelled from the specification's description of the
verification entry point: every gate polynomial must evaluate to zero on
every row, both cells of a copy-constraint must agree, and a cell bound
to the instance column must equal the supplied public input at the bound
row.  Field elements carried by halo2's `Value<F>` are modelled as
`Option`: `none` is an unknown/unassigned cell.
-/

namespace Halo2Fib

/-- halo2 `Value<F>`: a field element that may be unknown (`none`). -/
abbrev Value (F : Type) : Type := Option F

/-- Addition on `Value`: known exactly when both operands are known. -/
def Value.vadd {F : Type} [Add F] : Value F → Value F → Value F
  | some x, some y => some (x + y)
  | _, _ => none

/-- Negation on `Value`. -/
def Value.vneg {F : Type} [Neg F] : Value F → Value F
  | some x => some (-x)
  | none => none

/-- Multiplication on mock-prover cell values.  An unknown operand poisons
the product unless the other factor is known to be zero: this is what lets
a switched-off selector (value `0`) silence a gate whose other cells are
unassigned, exactly as the spec requires for selector gating. -/
def Value.vmul {F : Type} [Mul F] [Zero F] [DecidableEq F] : Value F → Value F → Value F
  | some x, some y => some (x * y)
  | some x, none => if x = 0 then some 0 else none
  | none, some y => if y = 0 then some 0 else none
  | none, none => none

/-- A reference to an equality-capable column: advice or instance. -/
inductive ColRef : Type
  | advice (idx : Nat)
  | inst (idx : Nat)
deriving DecidableEq

/-- A cell: a (column, absolute row) coordinate. -/
structure Cell : Type where
  col : ColRef
  row : Nat
deriving DecidableEq

/-- halo2 `Rotation`: a relative row offset used by gate queries. -/
abbrev Rotation : Type := Int

/-- The current row, `Rotation::cur()`. -/
def Rotation.cur : Rotation := 0

/-- The following row, `Rotation::next()`. -/
def Rotation.next : Rotation := 1

/-- A gate polynomial over column/rotation references, mirroring the
halo2 `Expression` constructors this circuit uses (selector query, advice
query, sum, product, negation). -/
inductive Expr (F : Type) : Type
  | selQuery (idx : Nat)
  | adviceQuery (col : Nat) (rot : Rotation)
  | sum (x y : Expr F)
  | prod (x y : Expr F)
  | negated (x : Expr F)
deriving DecidableEq

/-- The part of halo2's `ConstraintSystem` state that `FibChip::configure`
touches: column allocation counters, the equality-enabled columns, and the
registered gates (each a named list of named polynomials). -/
structure ConstraintSystem (F : Type) : Type where
  num_selectors : Nat
  num_advice : Nat
  num_instance : Nat
  equality : List ColRef
  gates : List (String × List (String × Expr F))

/-- The empty constraint system handed to `configure`. -/
def ConstraintSystem.init (F : Type) : ConstraintSystem F :=
  ⟨0, 0, 0, [], []⟩

/-- `meta.selector()`: allocate a fresh selector, returning its index. -/
def ConstraintSystem.selector {F : Type} (cs : ConstraintSystem F) :
    Nat × ConstraintSystem F :=
  (cs.num_selectors, { cs with num_selectors := cs.num_selectors + 1 })

/-- `meta.advice_column()`: allocate a fresh advice column. -/
def ConstraintSystem.advice_column {F : Type} (cs : ConstraintSystem F) :
    Nat × ConstraintSystem F :=
  (cs.num_advice, { cs with num_advice := cs.num_advice + 1 })

/-- `meta.instance_column()`: allocate a fresh instance column. -/
def ConstraintSystem.instance_column {F : Type} (cs : ConstraintSystem F) :
    Nat × ConstraintSystem F :=
  (cs.num_instance, { cs with num_instance := cs.num_instance + 1 })

/-- `meta.enable_equality(col)`: permit copy-constraints on a column. -/
def ConstraintSystem.enable_equality {F : Type} (cs : ConstraintSystem F)
    (c : ColRef) : ConstraintSystem F :=
  { cs with equality := cs.equality ++ [c] }

/-- `meta.create_gate(name, polys)`: register a named gate. -/
def ConstraintSystem.create_gate {F : Type} (cs : ConstraintSystem F)
    (nm : String) (polys : List (String × Expr F)) : ConstraintSystem F :=
  { cs with gates := cs.gates ++ [(nm, polys)] }

/-- The column handles held by the chip, as in the Rust `FibConfig`. -/
structure FibConfig : Type where
  selector : Nat
  a : Nat
  b : Nat
  target : Nat
deriving DecidableEq

/-- `FibChip::configure`: allocate one selector, advice columns `a` and
`b`, and instance column `target`; enable equality on `a`, `b`, `target`;
register the single gate `selector * (num_a + num_b - next_b)` (named
"斐波那契(相加)", constraint "a + b = next_b"), where `next_b` queries
column `b` at the next rotation. -/
def FibChip.configure (F : Type) : FibConfig × ConstraintSystem F :=
  let cs0 := ConstraintSystem.init F
  let s1 := cs0.selector
  let s2 := s1.2.advice_column
  let s3 := s2.2.advice_column
  let s4 := s3.2.instance_column
  let selector := s1.1
  let a := s2.1
  let b := s3.1
  let target := s4.1
  let cs5 := s4.2.enable_equality (ColRef.advice a)
  let cs6 := cs5.enable_equality (ColRef.advice b)
  let cs7 := cs6.enable_equality (ColRef.inst target)
  let poly : Expr F :=
    Expr.prod (Expr.selQuery selector)
      (Expr.sum (Expr.sum (Expr.adviceQuery a Rotation.cur)
                          (Expr.adviceQuery b Rotation.cur))
                (Expr.negated (Expr.adviceQuery b Rotation.next)))
  let cs8 := cs7.create_gate "斐波那契(相加)" [("a + b = next_b", poly)]
  (⟨selector, a, b, target⟩, cs8)

/-- The shorthand for the configured column handles. -/
def fibCfg (F : Type) : FibConfig := (FibChip.configure F).1

/-- The shorthand for the configured constraint system. -/
def fibCS (F : Type) : ConstraintSystem F := (FibChip.configure F).2

/-- halo2 `AssignedCell`: a cell coordinate together with the value that
was placed there, carried around to build copy-constraints. -/
structure AssignedCell (F : Type) : Type where
  cell : Cell
  val : Value F
deriving DecidableEq

/-- The assignment state accumulated while synthesizing: advice values
(as `(column, row, value)` records), selector enablings (as
`(selector, row)` records), copy-constraints, and public-input bindings
(as `(cell, instance column, instance row)` records). -/
structure Assignment (F : Type) : Type where
  advice_vals : List (Nat × Nat × Value F)
  enabled : List (Nat × Nat)
  copies : List (Cell × Cell)
  inst_bindings : List (Cell × Nat × Nat)
deriving DecidableEq

/-- The empty assignment. -/
def Assignment.empty (F : Type) : Assignment F := ⟨[], [], [], []⟩

/-- `Selector::enable` at an absolute row. -/
def Assignment.enable {F : Type} (asg : Assignment F) (s row : Nat) :
    Assignment F :=
  { asg with enabled := asg.enabled ++ [(s, row)] }

/-- `Region::assign_advice`: record a value for a `(column, row)` cell and
return the resulting `AssignedCell`. -/
def Assignment.assign_advice {F : Type} (asg : Assignment F)
    (col row : Nat) (v : Value F) : AssignedCell F × Assignment F :=
  (⟨⟨ColRef.advice col, row⟩, v⟩,
   { asg with advice_vals := asg.advice_vals ++ [(col, row, v)] })

/-- `AssignedCell::copy_advice`: assign the source cell's value into the
destination cell and record a copy-constraint between the two cells. -/
def Assignment.copy_advice {F : Type} (asg : Assignment F)
    (src : AssignedCell F) (col row : Nat) : AssignedCell F × Assignment F :=
  let s := asg.assign_advice col row src.val
  (s.1, { s.2 with copies := s.2.copies ++ [(src.cell, s.1.cell)] })

/-- The layouter state: the absolute row at which the single-pass floor
planner places the next region, plus the accumulated assignment. -/
structure Layouter (F : Type) : Type where
  offset : Nat
  asg : Assignment F
deriving DecidableEq

/-- `FibChip::assign_first_row`: in a fresh two-row region, enable the
selector at local row 0, assign seed `a` into column `a` row 0 and seed
`b` into column `b` row 0, assign `a + b` into column `b` row 1, and
return the assigned cells for `b` and for the sum. -/
def FibChip.assign_first_row {F : Type} [Add F] (cfg : FibConfig)
    (ly : Layouter F) (a b : Value F) :
    Layouter F × (AssignedCell F × AssignedCell F) :=
  let r := ly.offset
  let asg0 := ly.asg.enable cfg.selector r
  let s1 := asg0.assign_advice cfg.a r a
  let s2 := s1.2.assign_advice cfg.b r b
  let s3 := s2.2.assign_advice cfg.b (r + 1) (Value.vadd a b)
  (⟨r + 2, s3.2⟩, (s2.1, s3.1))

/-- `FibChip::assign_next_row`: in a fresh two-row region, enable the
selector at local row 0, copy the previous `b` cell into column `a` row 0
and the previous sum cell into column `b` row 0, assign the sum of the two
copied values into column `b` row 1, and return the new `b` cell together
with the new sum cell. -/
def FibChip.assign_next_row {F : Type} [Add F] (cfg : FibConfig)
    (ly : Layouter F) (pre_b pre_c : AssignedCell F) :
    Layouter F × (AssignedCell F × AssignedCell F) :=
  let r := ly.offset
  let asg0 := ly.asg.enable cfg.selector r
  let s1 := asg0.copy_advice pre_b cfg.a r
  let s2 := s1.2.copy_advice pre_c cfg.b r
  let sum := Value.vadd s1.1.val s2.1.val
  let s3 := s2.2.assign_advice cfg.b (r + 1) sum
  (⟨r + 2, s3.2⟩, (s2.1, s3.1))

/-- `FibChip::expose_public`: bind a cell to the instance column `target`
at the given instance row (`layouter.constrain_instance`). -/
def FibChip.expose_public {F : Type} (cfg : FibConfig) (ly : Layouter F)
    (c : AssignedCell F) (row : Nat) : Layouter F :=
  { ly with asg :=
      { ly.asg with inst_bindings := ly.asg.inst_bindings ++ [(c.cell, cfg.target, row)] } }

/-- The `for _i in 3..10` loop body of `FibCircuit::synthesize`, iterated
a given number of times: each step feeds the pair of cells returned by the
previous step into `assign_next_row`. -/
def FibChip.loopNext {F : Type} [Add F] (cfg : FibConfig) :
    Nat → Layouter F → AssignedCell F × AssignedCell F →
    Layouter F × (AssignedCell F × AssignedCell F)
  | 0, ly, ab => (ly, ab)
  | k + 1, ly, ab =>
    let s := FibChip.assign_next_row cfg ly ab.1 ab.2
    FibChip.loopNext cfg k s.1 s.2

/-- `FibCircuit::synthesize` with the recurrence-step count `K` made a
parameter: assign the first row from the seeds, run `assign_next_row`
`K` times on the chained cell pair, and expose the final sum cell at
instance row 0.  Returns the final layouter together with the last cell
pair. -/
def FibCircuit.synthesizeK {F : Type} [Add F] (cfg : FibConfig) (K : Nat)
    (a b : Value F) : Layouter F × (AssignedCell F × AssignedCell F) :=
  let ly0 : Layouter F := ⟨0, Assignment.empty F⟩
  let s1 := FibChip.assign_first_row cfg ly0 a b
  let s2 := FibChip.loopNext cfg K s1.1 s1.2
  (FibChip.expose_public cfg s2.1 s2.2.2 0, s2.2)

/-- `FibCircuit::synthesize` as written: the loop `for _i in 3..10` runs
`assign_next_row` exactly seven times. -/
def FibCircuit.synthesize {F : Type} [Add F] (cfg : FibConfig)
    (a b : Value F) : Layouter F :=
  (FibCircuit.synthesizeK cfg 7 a b).1

/-- The value recorded for an advice cell: the latest assignment to that
`(column, row)` wins; an untouched cell is unknown (`none`). -/
def Assignment.advice_at {F : Type} (asg : Assignment F) (col row : Nat) :
    Value F :=
  match (asg.advice_vals.filter fun t => t.1 == col && t.2.1 == row).getLast? with
  | some t => t.2.2
  | none => none

/-- Whether a selector is enabled at a row. -/
def Assignment.sel_on {F : Type} (asg : Assignment F) (s row : Nat) : Bool :=
  asg.enabled.contains (s, row)

/-- Evaluation of a gate polynomial at an absolute row: a selector query
yields `1` or `0` according to its enablings, an advice query reads the
assigned value at the rotated row, and unknown cells poison the result
except under a zero factor (see `Value.vmul`). -/
def Expr.eval {F : Type} [Ring F] [DecidableEq F] (asg : Assignment F)
    (row : Nat) : Expr F → Value F
  | .selQuery s => some (if asg.sel_on s row then 1 else 0)
  | .adviceQuery c rot => asg.advice_at c ((row : Int) + rot).toNat
  | .sum x y => Value.vadd (x.eval asg row) (y.eval asg row)
  | .prod x y => Value.vmul (x.eval asg row) (y.eval asg row)
  | .negated x => Value.vneg (x.eval asg row)

/-- A constraint violation reported by the checker. -/
inductive Failure : Type
  | gate (gateName polyName : String) (row : Nat)
  | copyMismatch (src dst : Cell)
  | publicBinding (c : Cell) (icol irow : Nat)
deriving DecidableEq

/-- Gate violations at one row: every polynomial of every registered gate
must evaluate to zero there. -/
def gateFailuresAt {F : Type} [Ring F] [DecidableEq F]
    (cs : ConstraintSystem F) (asg : Assignment F) (row : Nat) :
    List Failure :=
  cs.gates.flatMap fun g =>
    (g.2.filter fun p => decide (Expr.eval asg row p.2 ≠ some 0)).map
      fun p => Failure.gate g.1 p.1 row

/-- Gate violations over the first `n` rows of the trace. -/
def gateFailures {F : Type} [Ring F] [DecidableEq F]
    (cs : ConstraintSystem F) (asg : Assignment F) (n : Nat) : List Failure :=
  (List.range n).flatMap fun row => gateFailuresAt cs asg row

/-- The value held by a cell: advice cells read the assignment, instance
cells read the supplied public-input columns. -/
def cellValue {F : Type} (asg : Assignment F) (pub : List (List F)) :
    Cell → Value F
  | ⟨ColRef.advice c, r⟩ => asg.advice_at c r
  | ⟨ColRef.inst c, r⟩ => (pub[c]?).bind fun colv => colv[r]?

/-- Copy-constraint violations: the two cells of each recorded
copy-constraint must hold equal values. -/
def copyFailures {F : Type} [DecidableEq F] (asg : Assignment F)
    (pub : List (List F)) : List Failure :=
  (asg.copies.filter fun p =>
      decide (cellValue asg pub p.1 ≠ cellValue asg pub p.2)).map
    fun p => Failure.copyMismatch p.1 p.2

/-- Public-input binding violations: each cell bound by
`constrain_instance` must equal the public input at its instance row. -/
def bindingFailures {F : Type} [DecidableEq F] (asg : Assignment F)
    (pub : List (List F)) : List Failure :=
  (asg.inst_bindings.filter fun t =>
      decide (cellValue asg pub t.1 ≠ (pub[t.2.1]?).bind fun colv => colv[t.2.2]?)).map
    fun t => Failure.publicBinding t.1 t.2.1 t.2.2

/-- Modelled from the spec: the verification entry point (halo2's
`MockProver`, an external library not present in this repository), which
"given the circuit shape, the witness assignments, and a list of public
inputs, either confirms all constraints are satisfied or reports the
first violated constraint with its location".  It checks, over the first
`n` rows, every gate polynomial on every row (a disabled selector making
the product vanish), every recorded copy-constraint, and every
public-input binding; an empty failure list is "satisfied". -/
def verify {F : Type} [Ring F] [DecidableEq F] (cs : ConstraintSystem F)
    (asg : Assignment F) (pub : List (List F)) (n : Nat) : List Failure :=
  gateFailures cs asg n ++ copyFailures asg pub ++ bindingFailures asg pub

/-- The order of the Pallas base field: halo2's `pasta::Fp` used by the
`test_fib` test. -/
def pallasP : Nat :=
  28948022309329048855892746252171976963363056481941560715954676764349967630337

/-- The field of the `test_fib` test, `pasta::Fp`. -/
abbrev Fp : Type := ZMod pallasP

/-- The assignment produced by the `test_fib` circuit:
`FibCircuit { a: Value::known(Fp::one()), b: Value::known(Fp::one()) }`. -/
def testFibAsg : Assignment Fp :=
  (FibCircuit.synthesize (fibCfg Fp) (some 1) (some 1)).asg

/-- Specification-side recurrence, stated from the spec's words for the
refinement claim: `s 0 = a0`, `s 1 = b0`, `s (n+2) = s n + s (n+1)`. -/
def fibSpec {F : Type} [Add F] (a0 b0 : F) : Nat → F
  | 0 => a0
  | 1 => b0
  | n + 2 => fibSpec a0 b0 n + fibSpec a0 b0 (n + 1)

/-- Whether a column reference points at an advice column. -/
def ColRef.isAdvice : ColRef → Bool
  | .advice _ => true
  | .inst _ => false

/-- Reading an advice cell never consults the public inputs. -/
theorem cellValue_advice {F : Type} (asg : Assignment F)
    (pub : List (List F)) (c r : Nat) :
    cellValue asg pub ⟨ColRef.advice c, r⟩ = asg.advice_at c r := rfl

/-- The value of a cell in an advice column is the same under any choice
of public inputs. -/
theorem cellValue_pub_irrel {F : Type} (asg : Assignment F)
    (p1 p2 : List (List F)) (c : Cell) (h : c.col.isAdvice = true) :
    cellValue asg p1 c = cellValue asg p2 c := by
  obtain ⟨col, row⟩ := c
  cases col with
  | advice i => rfl
  | inst i => simp [ColRef.isAdvice] at h

/-- Copy-constraint checking ignores the public inputs whenever every
recorded copy relates two advice cells, as all copies made by this
circuit do. -/
theorem copyFailures_pub_irrel {F : Type} [DecidableEq F]
    (asg : Assignment F) (p1 p2 : List (List F))
    (h : ∀ q ∈ asg.copies, q.1.col.isAdvice = true ∧ q.2.col.isAdvice = true) :
    copyFailures asg p1 = copyFailures asg p2 := by
  unfold copyFailures
  congr 1
  apply List.filter_congr
  intro q hq
  rw [cellValue_pub_irrel asg p1 p2 q.1 (h q hq).1,
      cellValue_pub_irrel asg p1 p2 q.2 (h q hq).2]

/-- The gate polynomial registered by `configure`, written out. -/
def fibPoly (F : Type) : Expr F :=
  Expr.prod (Expr.selQuery 0)
    (Expr.sum (Expr.sum (Expr.adviceQuery 0 Rotation.cur)
                        (Expr.adviceQuery 1 Rotation.cur))
              (Expr.negated (Expr.adviceQuery 1 Rotation.next)))

/-- `configure` registers exactly the one named gate with the one named
polynomial. -/
theorem fibCS_gates (F : Type) :
    (fibCS F).gates = [("斐波那契(相加)", [("a + b = next_b", fibPoly F)])] := rfl

/-- The current-rotation query at a row reads that row. -/
theorem rot_cur_row (row : Nat) : ((row : Int) + Rotation.cur).toNat = row := by
  simp [Rotation.cur]

/-- The next-rotation query at a row reads the following row. -/
theorem rot_next_row (row : Nat) :
    ((row : Int) + Rotation.next).toNat = row + 1 := by
  unfold Rotation.next
  omega

/-- C1: for the circuit seeded with `a = 1, b = 1` and the seven
recurrence steps performed by `synthesize`, checking against public
input `[55]` over the 32 rows of `MockProver::run(5, ..)` reports no
violated constraint; the exposed cell is column `b` row 15, bound to
instance row 0, and it holds 55, which is the 10th Fibonacci number
under this indexing (`fibSpec 1 1 9`). -/
theorem C1_test_fib_satisfied :
    verify (fibCS Fp) testFibAsg [[(55 : Fp)]] 32 = [] ∧
    testFibAsg.inst_bindings
      = [(⟨ColRef.advice (fibCfg Fp).b, 15⟩, (fibCfg Fp).target, 0)] ∧
    testFibAsg.advice_at (fibCfg Fp).b 15 = some (55 : Fp) ∧
    fibSpec (1 : Fp) 1 9 = 55 :=
  ⟨by decide, by decide, by decide, by decide⟩

/-- C10: `configure` allocates exactly one selector, two advice columns
and one instance column, hands the chip the handles
`selector = 0, a = 0, b = 1, target = 0`, enables equality exactly on
the two advice columns and the instance column, and registers exactly
one gate. -/
theorem C10_configure_allocations (F : Type) :
    (fibCS F).num_selectors = 1 ∧
    (fibCS F).num_advice = 2 ∧
    (fibCS F).num_instance = 1 ∧
    (fibCS F).equality
      = [ColRef.advice (fibCfg F).a, ColRef.advice (fibCfg F).b,
         ColRef.inst (fibCfg F).target] ∧
    (fibCS F).gates.length = 1 ∧
    fibCfg F = ⟨0, 0, 1, 0⟩ :=
  ⟨rfl, rfl, rfl, rfl, rfl, rfl⟩

/-- C10 witness: the allocation facts instantiated at the test field. -/
theorem C10_configure_allocations_witness :
    (fibCS Fp).num_selectors = 1 ∧
    (fibCS Fp).num_advice = 2 ∧
    (fibCS Fp).num_instance = 1 ∧
    (fibCS Fp).equality
      = [ColRef.advice (fibCfg Fp).a, ColRef.advice (fibCfg Fp).b,
         ColRef.inst (fibCfg Fp).target] ∧
    (fibCS Fp).gates.length = 1 ∧
    fibCfg Fp = ⟨0, 0, 1, 0⟩ :=
  C10_configure_allocations Fp

/-- C4: `assign_next_row` enables the selector at its region's local
row 0 (absolute row `ly.offset`), copy-constrains the previous `b` cell
into column `a` and the previous sum cell into column `b` at that row —
assigning exactly the source cells' values, so there is no recomputation
drift — assigns the sum of the two copied values into column `b` at
local row 1, and returns the chainable pair (new `b` cell, new sum
cell); the region spans two rows and adds no public bindings. -/
theorem C4_assign_next_row_effects (F : Type) [CommRing F]
    (cfg : FibConfig) (ly : Layouter F) (pb pc : AssignedCell F) :
    (FibChip.assign_next_row cfg ly pb pc).1.asg.enabled
        = ly.asg.enabled ++ [(cfg.selector, ly.offset)] ∧
    (FibChip.assign_next_row cfg ly pb pc).1.asg.copies
        = ly.asg.copies ++ [(pb.cell, ⟨ColRef.advice cfg.a, ly.offset⟩),
                            (pc.cell, ⟨ColRef.advice cfg.b, ly.offset⟩)] ∧
    (FibChip.assign_next_row cfg ly pb pc).1.asg.advice_vals
        = ly.asg.advice_vals
            ++ [(cfg.a, ly.offset, pb.val), (cfg.b, ly.offset, pc.val),
                (cfg.b, ly.offset + 1, Value.vadd pb.val pc.val)] ∧
    (FibChip.assign_next_row cfg ly pb pc).2.1
        = ⟨⟨ColRef.advice cfg.b, ly.offset⟩, pc.val⟩ ∧
    (FibChip.assign_next_row cfg ly pb pc).2.2
        = ⟨⟨ColRef.advice cfg.b, ly.offset + 1⟩, Value.vadd pb.val pc.val⟩ ∧
    (FibChip.assign_next_row cfg ly pb pc).1.offset = ly.offset + 2 ∧
    (FibChip.assign_next_row cfg ly pb pc).1.asg.inst_bindings
        = ly.asg.inst_bindings := by
  refine ⟨?_, ?_, ?_, rfl, rfl, rfl, rfl⟩ <;>
    simp [FibChip.assign_next_row, Assignment.copy_advice,
          Assignment.assign_advice, Assignment.enable, List.append_assoc]

/-- C4 witness: the effects at a concrete layouter and cell pair. -/
theorem C4_assign_next_row_effects_witness :
    (FibChip.assign_next_row (fibCfg Fp) ⟨2, Assignment.empty Fp⟩
        ⟨⟨ColRef.advice 1, 0⟩, some 1⟩ ⟨⟨ColRef.advice 1, 1⟩, some 2⟩).1.asg.enabled
        = (Assignment.empty Fp).enabled ++ [((fibCfg Fp).selector, 2)] ∧
    (FibChip.assign_next_row (fibCfg Fp) ⟨2, Assignment.empty Fp⟩
        ⟨⟨ColRef.advice 1, 0⟩, some 1⟩ ⟨⟨ColRef.advice 1, 1⟩, some 2⟩).1.asg.copies
        = (Assignment.empty Fp).copies
            ++ [((⟨⟨ColRef.advice 1, 0⟩, some (1 : Fp)⟩ : AssignedCell Fp).cell,
                 ⟨ColRef.advice (fibCfg Fp).a, 2⟩),
                ((⟨⟨ColRef.advice 1, 1⟩, some (2 : Fp)⟩ : AssignedCell Fp).cell,
                 ⟨ColRef.advice (fibCfg Fp).b, 2⟩)] ∧
    (FibChip.assign_next_row (fibCfg Fp) ⟨2, Assignment.empty Fp⟩
        ⟨⟨ColRef.advice 1, 0⟩, some 1⟩ ⟨⟨ColRef.advice 1, 1⟩, some 2⟩).1.asg.advice_vals
        = (Assignment.empty Fp).advice_vals
            ++ [((fibCfg Fp).a, 2, some (1 : Fp)), ((fibCfg Fp).b, 2, some (2 : Fp)),
                ((fibCfg Fp).b, 2 + 1, Value.vadd (some 1) (some 2))] ∧
    (FibChip.assign_next_row (fibCfg Fp) ⟨2, Assignment.empty Fp⟩
        ⟨⟨ColRef.advice 1, 0⟩, some 1⟩ ⟨⟨ColRef.advice 1, 1⟩, some 2⟩).2.1
        = ⟨⟨ColRef.advice (fibCfg Fp).b, 2⟩, some 2⟩ ∧
    (FibChip.assign_next_row (fibCfg Fp) ⟨2, Assignment.empty Fp⟩
        ⟨⟨ColRef.advice 1, 0⟩, some 1⟩ ⟨⟨ColRef.advice 1, 1⟩, some 2⟩).2.2
        = ⟨⟨ColRef.advice (fibCfg Fp).b, 2 + 1⟩, Value.vadd (some 1) (some 2)⟩ ∧
    (FibChip.assign_next_row (fibCfg Fp) ⟨2, Assignment.empty Fp⟩
        ⟨⟨ColRef.advice 1, 0⟩, some 1⟩ ⟨⟨ColRef.advice 1, 1⟩, some 2⟩).1.offset = 2 + 2 ∧
    (FibChip.assign_next_row (fibCfg Fp) ⟨2, Assignment.empty Fp⟩
        ⟨⟨ColRef.advice 1, 0⟩, some 1⟩ ⟨⟨ColRef.advice 1, 1⟩, some 2⟩).1.asg.inst_bindings
        = (Assignment.empty Fp).inst_bindings :=
  C4_assign_next_row_effects Fp (fibCfg Fp) ⟨2, Assignment.empty Fp⟩
    ⟨⟨ColRef.advice 1, 0⟩, some 1⟩ ⟨⟨ColRef.advice 1, 1⟩, some 2⟩

/-- C5: `assign_first_row`, given seed values `a0` and `b0` and placed at
the start of the trace, enables the selector at row 0, assigns `a0` into
column `a` row 0 and `b0` into column `b` row 0, computes `c0 = a0 + b0`
and assigns it into column `b` row 1, and returns the assigned cells for
`b0` (row 0) and `c0` (row 1) for chaining; it records no
copy-constraints and no public bindings, and the region spans two rows. -/
theorem C5_assign_first_row_effects (F : Type) [CommRing F]
    (cfg : FibConfig) (asg0 : Assignment F) (a0 b0 : F) :
    (FibChip.assign_first_row cfg ⟨0, asg0⟩ (some a0) (some b0)).1.asg.enabled
        = asg0.enabled ++ [(cfg.selector, 0)] ∧
    (FibChip.assign_first_row cfg ⟨0, asg0⟩ (some a0) (some b0)).1.asg.advice_vals
        = asg0.advice_vals
            ++ [(cfg.a, 0, some a0), (cfg.b, 0, some b0),
                (cfg.b, 1, some (a0 + b0))] ∧
    (FibChip.assign_first_row cfg ⟨0, asg0⟩ (some a0) (some b0)).2.1
        = ⟨⟨ColRef.advice cfg.b, 0⟩, some b0⟩ ∧
    (FibChip.assign_first_row cfg ⟨0, asg0⟩ (some a0) (some b0)).2.2
        = ⟨⟨ColRef.advice cfg.b, 1⟩, some (a0 + b0)⟩ ∧
    (FibChip.assign_first_row cfg ⟨0, asg0⟩ (some a0) (some b0)).1.asg.copies
        = asg0.copies ∧
    (FibChip.assign_first_row cfg ⟨0, asg0⟩ (some a0) (some b0)).1.asg.inst_bindings
        = asg0.inst_bindings ∧
    (FibChip.assign_first_row cfg ⟨0, asg0⟩ (some a0) (some b0)).1.offset = 0 + 2 := by
  refine ⟨?_, ?_, rfl, rfl, rfl, rfl, rfl⟩ <;>
    simp [FibChip.assign_first_row, Assignment.assign_advice,
          Assignment.enable, Value.vadd, List.append_assoc]

/-- C5 witness: the first-row effects at the test seeds `a0 = b0 = 1`. -/
theorem C5_assign_first_row_effects_witness :
    (FibChip.assign_first_row (fibCfg Fp) ⟨0, Assignment.empty Fp⟩
        (some 1) (some 1)).1.asg.enabled
        = (Assignment.empty Fp).enabled ++ [((fibCfg Fp).selector, 0)] ∧
    (FibChip.assign_first_row (fibCfg Fp) ⟨0, Assignment.empty Fp⟩
        (some 1) (some 1)).1.asg.advice_vals
        = (Assignment.empty Fp).advice_vals
            ++ [((fibCfg Fp).a, 0, some (1 : Fp)), ((fibCfg Fp).b, 0, some (1 : Fp)),
                ((fibCfg Fp).b, 1, some ((1 : Fp) + 1))] ∧
    (FibChip.assign_first_row (fibCfg Fp) ⟨0, Assignment.empty Fp⟩
        (some 1) (some 1)).2.1
        = ⟨⟨ColRef.advice (fibCfg Fp).b, 0⟩, some 1⟩ ∧
    (FibChip.assign_first_row (fibCfg Fp) ⟨0, Assignment.empty Fp⟩
        (some 1) (some 1)).2.2
        = ⟨⟨ColRef.advice (fibCfg Fp).b, 1⟩, some ((1 : Fp) + 1)⟩ ∧
    (FibChip.assign_first_row (fibCfg Fp) ⟨0, Assignment.empty Fp⟩
        (some 1) (some 1)).1.asg.copies = (Assignment.empty Fp).copies ∧
    (FibChip.assign_first_row (fibCfg Fp) ⟨0, Assignment.empty Fp⟩
        (some 1) (some 1)).1.asg.inst_bindings = (Assignment.empty Fp).inst_bindings ∧
    (FibChip.assign_first_row (fibCfg Fp) ⟨0, Assignment.empty Fp⟩
        (some 1) (some 1)).1.offset = 0 + 2 :=
  C5_assign_first_row_effects Fp (fibCfg Fp) (Assignment.empty Fp) 1 1

/-- C6: for every pair of seed field elements the chained assignment
computes the linear recurrence `fibSpec`: the first row returns cells
holding `(s 1, s 2)`, each `assign_next_row` maps a known value pair
`(x, y)` to `(y, x + y)`, and after the seven loop iterations of
`synthesize` the second returned cell holds `s 9` — the 10th term for
arbitrary seeds — and it is exactly the cell bound to instance row 0. -/
theorem C6_refines_recurrence (F : Type) [CommRing F] (a0 b0 : F) :
    ((FibChip.assign_first_row (fibCfg F) ⟨0, Assignment.empty F⟩
        (some a0) (some b0)).2.1.val = some (fibSpec a0 b0 1) ∧
     (FibChip.assign_first_row (fibCfg F) ⟨0, Assignment.empty F⟩
        (some a0) (some b0)).2.2.val = some (fibSpec a0 b0 2)) ∧
    (∀ (ly : Layouter F) (pb pc : AssignedCell F) (x y : F),
        pb.val = some x → pc.val = some y →
        (FibChip.assign_next_row (fibCfg F) ly pb pc).2.1.val = some y ∧
        (FibChip.assign_next_row (fibCfg F) ly pb pc).2.2.val = some (x + y)) ∧
    ((FibCircuit.synthesizeK (fibCfg F) 7 (some a0) (some b0)).2.2.val
        = some (fibSpec a0 b0 9) ∧
     (FibCircuit.synthesizeK (fibCfg F) 7 (some a0) (some b0)).1.asg.inst_bindings
        = [((FibCircuit.synthesizeK (fibCfg F) 7 (some a0) (some b0)).2.2.cell,
            (fibCfg F).target, 0)]) := by
  refine ⟨⟨rfl, rfl⟩, ?_, rfl, rfl⟩
  intro ly pb pc x y hx hy
  constructor
  · simp [FibChip.assign_next_row, Assignment.copy_advice,
          Assignment.assign_advice, hy]
  · simp [FibChip.assign_next_row, Assignment.copy_advice,
          Assignment.assign_advice, hx, hy, Value.vadd]

/-- C6 witness: the refinement statement at the seeds of `test_fib`. -/
theorem C6_refines_recurrence_witness :
    ((FibChip.assign_first_row (fibCfg Fp) ⟨0, Assignment.empty Fp⟩
        (some 1) (some 1)).2.1.val = some (fibSpec (1 : Fp) 1 1) ∧
     (FibChip.assign_first_row (fibCfg Fp) ⟨0, Assignment.empty Fp⟩
        (some 1) (some 1)).2.2.val = some (fibSpec (1 : Fp) 1 2)) ∧
    (∀ (ly : Layouter Fp) (pb pc : AssignedCell Fp) (x y : Fp),
        pb.val = some x → pc.val = some y →
        (FibChip.assign_next_row (fibCfg Fp) ly pb pc).2.1.val = some y ∧
        (FibChip.assign_next_row (fibCfg Fp) ly pb pc).2.2.val = some (x + y)) ∧
    ((FibCircuit.synthesizeK (fibCfg Fp) 7 (some 1) (some 1)).2.2.val
        = some (fibSpec (1 : Fp) 1 9) ∧
     (FibCircuit.synthesizeK (fibCfg Fp) 7 (some 1) (some 1)).1.asg.inst_bindings
        = [((FibCircuit.synthesizeK (fibCfg Fp) 7 (some 1) (some 1)).2.2.cell,
            (fibCfg Fp).target, 0)]) :=
  C6_refines_recurrence Fp 1 1

/-- C8: `synthesize` binds exactly the final chained sum cell — column
`b`, row 15 — to instance row 0 of the `target` column, and the
public-binding check for that binding is the assertion that the cell's
value equals the supplied public input at that row. -/
theorem C8_public_binding (F : Type) [CommRing F] [DecidableEq F]
    (a b : Value F) :
    (FibCircuit.synthesizeK (fibCfg F) 7 a b).1.asg.inst_bindings
        = [((FibCircuit.synthesizeK (fibCfg F) 7 a b).2.2.cell,
            (fibCfg F).target, 0)] ∧
    (FibCircuit.synthesizeK (fibCfg F) 7 a b).2.2.cell
        = ⟨ColRef.advice (fibCfg F).b, 15⟩ ∧
    (∀ (pub : List (List F)),
        bindingFailures (FibCircuit.synthesizeK (fibCfg F) 7 a b).1.asg pub
          = if cellValue (FibCircuit.synthesizeK (fibCfg F) 7 a b).1.asg pub
                 (FibCircuit.synthesizeK (fibCfg F) 7 a b).2.2.cell
               = (pub[(fibCfg F).target]?).bind (fun colv => colv[0]?)
            then []
            else [Failure.publicBinding
                    (FibCircuit.synthesizeK (fibCfg F) 7 a b).2.2.cell
                    (fibCfg F).target 0]) := by
  refine ⟨rfl, rfl, ?_⟩
  intro pub
  unfold bindingFailures
  rw [show (FibCircuit.synthesizeK (fibCfg F) 7 a b).1.asg.inst_bindings
        = [((FibCircuit.synthesizeK (fibCfg F) 7 a b).2.2.cell,
            (fibCfg F).target, 0)] from rfl]
  by_cases h : cellValue (FibCircuit.synthesizeK (fibCfg F) 7 a b).1.asg pub
      (FibCircuit.synthesizeK (fibCfg F) 7 a b).2.2.cell
      = (pub[(fibCfg F).target]?).bind (fun colv => colv[0]?)
  · simp [List.filter_cons, h]
  · simp [List.filter_cons, h]

/-- C8 witness: the binding facts at the `test_fib` seeds. -/
theorem C8_public_binding_witness :
    (FibCircuit.synthesizeK (fibCfg Fp) 7 (some 1) (some 1)).1.asg.inst_bindings
        = [((FibCircuit.synthesizeK (fibCfg Fp) 7 (some 1) (some 1)).2.2.cell,
            (fibCfg Fp).target, 0)] ∧
    (FibCircuit.synthesizeK (fibCfg Fp) 7 (some 1) (some 1)).2.2.cell
        = ⟨ColRef.advice (fibCfg Fp).b, 15⟩ ∧
    (∀ (pub : List (List Fp)),
        bindingFailures (FibCircuit.synthesizeK (fibCfg Fp) 7 (some 1) (some 1)).1.asg pub
          = if cellValue (FibCircuit.synthesizeK (fibCfg Fp) 7 (some 1) (some 1)).1.asg pub
                 (FibCircuit.synthesizeK (fibCfg Fp) 7 (some 1) (some 1)).2.2.cell
               = (pub[(fibCfg Fp).target]?).bind (fun colv => colv[0]?)
            then []
            else [Failure.publicBinding
                    (FibCircuit.synthesizeK (fibCfg Fp) 7 (some 1) (some 1)).2.2.cell
                    (fibCfg Fp).target 0]) :=
  C8_public_binding Fp (some 1) (some 1)

/-- C9: circuit construction is deterministic — any two runs of
configuration plus assignment with the same seeds and the same step
count yield the same configuration, identical assigned values, selector
enablings, copy-constraints and public bindings, and hence the identical
set of satisfied constraints under any public input. -/
theorem C9_deterministic (F : Type) [CommRing F] [DecidableEq F]
    (a b : Value F) (K n : Nat) (pub : List (List F))
    (c1 c2 : FibConfig × ConstraintSystem F)
    (r1 r2 : Layouter F × (AssignedCell F × AssignedCell F))
    (hc1 : c1 = FibChip.configure F) (hc2 : c2 = FibChip.configure F)
    (h1 : r1 = FibCircuit.synthesizeK c1.1 K a b)
    (h2 : r2 = FibCircuit.synthesizeK c2.1 K a b) :
    c1 = c2 ∧
    r1.1.asg.advice_vals = r2.1.asg.advice_vals ∧
    r1.1.asg.enabled = r2.1.asg.enabled ∧
    r1.1.asg.copies = r2.1.asg.copies ∧
    r1.1.asg.inst_bindings = r2.1.asg.inst_bindings ∧
    verify c1.2 r1.1.asg pub n = verify c2.2 r2.1.asg pub n := by
  subst hc1 hc2 h1 h2
  exact ⟨rfl, rfl, rfl, rfl, rfl, rfl⟩

/-- C9 witness: two runs at the `test_fib` seeds, `K = 7` steps and
public input `[55]` coincide. -/
theorem C9_deterministic_witness :
    FibChip.configure Fp = FibChip.configure Fp ∧
    (FibCircuit.synthesizeK (FibChip.configure Fp).1 7 (some (1 : Fp)) (some 1)).1.asg.advice_vals
        = (FibCircuit.synthesizeK (FibChip.configure Fp).1 7 (some (1 : Fp)) (some 1)).1.asg.advice_vals ∧
    (FibCircuit.synthesizeK (FibChip.configure Fp).1 7 (some (1 : Fp)) (some 1)).1.asg.enabled
        = (FibCircuit.synthesizeK (FibChip.configure Fp).1 7 (some (1 : Fp)) (some 1)).1.asg.enabled ∧
    (FibCircuit.synthesizeK (FibChip.configure Fp).1 7 (some (1 : Fp)) (some 1)).1.asg.copies
        = (FibCircuit.synthesizeK (FibChip.configure Fp).1 7 (some (1 : Fp)) (some 1)).1.asg.copies ∧
    (FibCircuit.synthesizeK (FibChip.configure Fp).1 7 (some (1 : Fp)) (some 1)).1.asg.inst_bindings
        = (FibCircuit.synthesizeK (FibChip.configure Fp).1 7 (some (1 : Fp)) (some 1)).1.asg.inst_bindings ∧
    verify (FibChip.configure Fp).2
        (FibCircuit.synthesizeK (FibChip.configure Fp).1 7 (some (1 : Fp)) (some 1)).1.asg [[(55 : Fp)]] 32
      = verify (FibChip.configure Fp).2
          (FibCircuit.synthesizeK (FibChip.configure Fp).1 7 (some (1 : Fp)) (some 1)).1.asg [[(55 : Fp)]] 32 :=
  C9_deterministic Fp (some 1) (some 1) 7 32 [[(55 : Fp)]]
    (FibChip.configure Fp) (FibChip.configure Fp)
    (FibCircuit.synthesizeK (FibChip.configure Fp).1 7 (some (1 : Fp)) (some 1))
    (FibCircuit.synthesizeK (FibChip.configure Fp).1 7 (some (1 : Fp)) (some 1))
    rfl rfl rfl rfl

/-- C2: for the same circuit and seeds, checking against any public
input `t ≠ 55` leaves every gate and copy-constraint satisfied but
reports exactly the unsatisfied public-input-binding constraint at the
designated cell (column `b`, row 15, bound to instance row 0). -/
theorem C2_wrong_public_input (t : Fp) (h : t ≠ 55) :
    verify (fibCS Fp) testFibAsg [[t]] 32
      = [Failure.publicBinding ⟨ColRef.advice 1, 15⟩ 0 0] := by
  have hg : gateFailures (fibCS Fp) testFibAsg 32 = [] := by decide
  have hcadv : ∀ q ∈ testFibAsg.copies,
      q.1.col.isAdvice = true ∧ q.2.col.isAdvice = true := by decide
  have hcopy : copyFailures testFibAsg [[t]]
      = copyFailures testFibAsg [[(55 : Fp)]] :=
    copyFailures_pub_irrel testFibAsg [[t]] [[(55 : Fp)]] hcadv
  have hcopy55 : copyFailures testFibAsg [[(55 : Fp)]] = [] := by decide
  have ebind : testFibAsg.inst_bindings = [(⟨ColRef.advice 1, 15⟩, 0, 0)] := by
    decide
  have h55 : testFibAsg.advice_at 1 15 = some (55 : Fp) := by decide
  have hne : (some (55 : Fp) : Option Fp) ≠ some t :=
    fun hq => h (Option.some.inj hq).symm
  have hbind : bindingFailures testFibAsg [[t]]
      = [Failure.publicBinding ⟨ColRef.advice 1, 15⟩ 0 0] := by
    unfold bindingFailures
    rw [ebind]
    simp [List.filter_cons, cellValue_advice, h55, hne]
  unfold verify
  rw [hg, hcopy, hcopy55, hbind]
  rfl

/-- C2 witness: public input `[56]` yields exactly the public-binding
failure. -/
theorem C2_wrong_public_input_witness :
    (56 : Fp) ≠ 55 ∧
    verify (fibCS Fp) testFibAsg [[(56 : Fp)]] 32
      = [Failure.publicBinding ⟨ColRef.advice 1, 15⟩ 0 0] :=
  ⟨by decide, C2_wrong_public_input 56 (by decide)⟩

/-- C3: the single gate enforces `a + b - next_b = 0` exactly on
selector-enabled rows: on a row where the selector is enabled, an
assignment with `a + b ≠ next_b` (read from column `b` of the following
row) produces exactly the gate violation at that row, while on a row
where the selector is disabled the same values produce no gate
violation. -/
theorem C3_gate_gating (F : Type) [CommRing F] [DecidableEq F]
    (asg : Assignment F) (row : Nat) (va vb vnb : F)
    (ha : asg.advice_at (fibCfg F).a row = some va)
    (hb : asg.advice_at (fibCfg F).b row = some vb)
    (hnb : asg.advice_at (fibCfg F).b (row + 1) = some vnb)
    (hne : va + vb ≠ vnb) :
    (asg.sel_on (fibCfg F).selector row = true →
        gateFailuresAt (fibCS F) asg row
          = [Failure.gate "斐波那契(相加)" "a + b = next_b" row]) ∧
    (asg.sel_on (fibCfg F).selector row = false →
        gateFailuresAt (fibCS F) asg row = []) := by
  have ha' : asg.advice_at 0 row = some va := ha
  have hb' : asg.advice_at 1 row = some vb := hb
  have hnb' : asg.advice_at 1 (row + 1) = some vnb := hnb
  have key : va + vb + -vnb ≠ 0 := fun hq => hne (add_neg_eq_zero.mp hq)
  constructor
  · intro hs
    have hs' : asg.sel_on 0 row = true := hs
    simp [gateFailuresAt, fibCS_gates, fibPoly, Expr.eval, rot_cur_row,
          rot_next_row, hs', ha', hb', hnb', Value.vadd, Value.vneg,
          Value.vmul, key]
  · intro hs
    have hs' : asg.sel_on 0 row = false := hs
    simp [gateFailuresAt, fibCS_gates, fibPoly, Expr.eval, rot_cur_row,
          rot_next_row, hs', ha', hb', hnb', Value.vadd, Value.vneg,
          Value.vmul]

/-- A two-row assignment with `a = 1, b = 2` on row 0 and `b = 4` on
row 1 — so `a + b ≠ next_b` — with the selector enabled on row 0 only. -/
def gateDemoAsg : Assignment Fp :=
  ⟨[(0, 0, some 1), (1, 0, some 2), (1, 1, some 4)], [(0, 0)], [], []⟩

/-- C3 witness: the gating facts at the concrete bad assignment
`gateDemoAsg`, row 0. -/
theorem C3_gate_gating_witness :
    gateDemoAsg.advice_at (fibCfg Fp).a 0 = some 1 ∧
    gateDemoAsg.advice_at (fibCfg Fp).b 0 = some 2 ∧
    gateDemoAsg.advice_at (fibCfg Fp).b (0 + 1) = some 4 ∧
    (1 : Fp) + 2 ≠ 4 ∧
    ((gateDemoAsg.sel_on (fibCfg Fp).selector 0 = true →
        gateFailuresAt (fibCS Fp) gateDemoAsg 0
          = [Failure.gate "斐波那契(相加)" "a + b = next_b" 0]) ∧
     (gateDemoAsg.sel_on (fibCfg Fp).selector 0 = false →
        gateFailuresAt (fibCS Fp) gateDemoAsg 0 = [])) :=
  ⟨by decide, by decide, by decide, by decide,
   C3_gate_gating Fp gateDemoAsg 0 1 2 4 (by decide) (by decide) (by decide)
     (by decide)⟩

/-- Outcome of running a chip region operation against a backend whose
individual calls may fail: the Rust function either returns `Ok`,
returns an `Err` (propagated with the `?` operator or by
`assign_region` itself), or aborts the whole process with a message —
the abort raised by `.expect(msg)` on a failed call, which never
returns to the caller. -/
inductive RunOutcome (α : Type) : Type
  | ok (value : α)
  | errReturned
  | abortedWith (msg : String)
deriving DecidableEq

/-- `FibChip::assign_first_row` with the failure behaviour of its
backend calls made explicit.  `regionFails` says the layouter cannot
place the region (`assign_region` returns `Err`, which the chip
returns); `callFails i` says the `i`-th backend call inside the region
closure fails (0: `selector.enable`, 1: assign seed `a`, 2: assign seed
`b`, 3: assign the sum).  The source propagates the `enable` failure
with `?` but wraps each `assign_advice` in `.expect("...")`, which
aborts with the quoted message instead of returning the error. -/
def FibChip.assign_first_row_run {F : Type} [Add F] (cfg : FibConfig)
    (ly : Layouter F) (a b : Value F) (regionFails : Bool)
    (callFails : Nat → Bool) :
    RunOutcome (Layouter F × (AssignedCell F × AssignedCell F)) :=
  if regionFails then RunOutcome.errReturned
  else if callFails 0 then RunOutcome.errReturned
  else if callFails 1 then RunOutcome.abortedWith "加载a失败"
  else if callFails 2 then RunOutcome.abortedWith "加载b失败"
  else if callFails 3 then RunOutcome.abortedWith "填写下一行b失败"
  else RunOutcome.ok (FibChip.assign_first_row cfg ly a b)

/-- `FibChip::assign_next_row` with the failure behaviour of its backend
calls made explicit, analogously (0: `selector.enable`, 1: copy previous
`b` into `a`, 2: copy previous sum into `b`, 3: assign the sum); the two
`copy_advice` calls and the `assign_advice` call are each wrapped in
`.expect("...")`. -/
def FibChip.assign_next_row_run {F : Type} [Add F] (cfg : FibConfig)
    (ly : Layouter F) (pre_b pre_c : AssignedCell F) (regionFails : Bool)
    (callFails : Nat → Bool) :
    RunOutcome (Layouter F × (AssignedCell F × AssignedCell F)) :=
  if regionFails then RunOutcome.errReturned
  else if callFails 0 then RunOutcome.errReturned
  else if callFails 1 then RunOutcome.abortedWith "拷贝到a失败"
  else if callFails 2 then RunOutcome.abortedWith "拷贝到b失败"
  else if callFails 3 then RunOutcome.abortedWith "填写下一行b失败"
  else RunOutcome.ok (FibChip.assign_next_row cfg ly pre_b pre_c)

/-- C7 counterexample: when the first cell assignment inside
`assign_first_row` fails, the operation does not return an assignment
error as its failure result — it aborts through `.expect` with the
message "加载a失败". -/
theorem C7_counterexample_abort :
    FibChip.assign_first_row_run (fibCfg Fp) ⟨0, Assignment.empty Fp⟩
        (some 1) (some 1) false (fun i => i == 1)
      = RunOutcome.abortedWith "加载a失败" ∧
    FibChip.assign_first_row_run (fibCfg Fp) ⟨0, Assignment.empty Fp⟩
        (some 1) (some 1) false (fun i => i == 1)
      ≠ RunOutcome.errReturned := by
  constructor
  · rfl
  · intro hq
    exact RunOutcome.noConfusion hq

/-- C7 amended: a region-placement failure is returned as the failure
result (as is a `selector.enable` failure, propagated with `?`), but a
failing cell assignment or copy-constraint aborts circuit construction
immediately with the descriptive `.expect` message for that call,
rather than returning the error. -/
theorem C7_failure_behaviour (F : Type) [CommRing F] (cfg : FibConfig)
    (ly : Layouter F) (a b : Value F) (pb pc : AssignedCell F)
    (callFails : Nat → Bool) (h0 : callFails 0 = false) :
    FibChip.assign_first_row_run cfg ly a b true callFails
        = RunOutcome.errReturned ∧
    FibChip.assign_next_row_run cfg ly pb pc true callFails
        = RunOutcome.errReturned ∧
    (callFails 1 = true →
        FibChip.assign_first_row_run cfg ly a b false callFails
            = RunOutcome.abortedWith "加载a失败" ∧
        FibChip.assign_next_row_run cfg ly pb pc false callFails
            = RunOutcome.abortedWith "拷贝到a失败") ∧
    (callFails 1 = false → callFails 2 = true →
        FibChip.assign_first_row_run cfg ly a b false callFails
            = RunOutcome.abortedWith "加载b失败" ∧
        FibChip.assign_next_row_run cfg ly pb pc false callFails
            = RunOutcome.abortedWith "拷贝到b失败") ∧
    (callFails 1 = false → callFails 2 = false → callFails 3 = true →
        FibChip.assign_first_row_run cfg ly a b false callFails
            = RunOutcome.abortedWith "填写下一行b失败" ∧
        FibChip.assign_next_row_run cfg ly pb pc false callFails
            = RunOutcome.abortedWith "填写下一行b失败") := by
  refine ⟨?_, ?_, ?_, ?_, ?_⟩
  · simp [FibChip.assign_first_row_run]
  · simp [FibChip.assign_next_row_run]
  · intro h1
    constructor <;>
      simp [FibChip.assign_first_row_run, FibChip.assign_next_row_run, h0, h1]
  · intro h1 h2
    constructor <;>
      simp [FibChip.assign_first_row_run, FibChip.assign_next_row_run,
            h0, h1, h2]
  · intro h1 h2 h3
    constructor <;>
      simp [FibChip.assign_first_row_run, FibChip.assign_next_row_run,
            h0, h1, h2, h3]

/-- C7 witness: the amended failure behaviour at a concrete scenario in
which the first cell assignment fails. -/
theorem C7_failure_behaviour_witness :
    (fun i => i == 1) 0 = false ∧
    (FibChip.assign_first_row_run (fibCfg Fp) ⟨0, Assignment.empty Fp⟩
        (some 1) (some 1) true (fun i => i == 1)
        = RunOutcome.errReturned ∧
     FibChip.assign_next_row_run (fibCfg Fp) ⟨0, Assignment.empty Fp⟩
        ⟨⟨ColRef.advice 1, 0⟩, some 1⟩ ⟨⟨ColRef.advice 1, 1⟩, some 2⟩
        true (fun i => i == 1)
        = RunOutcome.errReturned ∧
     ((fun i => i == 1) 1 = true →
        FibChip.assign_first_row_run (fibCfg Fp) ⟨0, Assignment.empty Fp⟩
            (some 1) (some 1) false (fun i => i == 1)
            = RunOutcome.abortedWith "加载a失败" ∧
        FibChip.assign_next_row_run (fibCfg Fp) ⟨0, Assignment.empty Fp⟩
            ⟨⟨ColRef.advice 1, 0⟩, some 1⟩ ⟨⟨ColRef.advice 1, 1⟩, some 2⟩
            false (fun i => i == 1)
            = RunOutcome.abortedWith "拷贝到a失败") ∧
     ((fun i => i == 1) 1 = false → (fun i => i == 1) 2 = true →
        FibChip.assign_first_row_run (fibCfg Fp) ⟨0, Assignment.empty Fp⟩
            (some 1) (some 1) false (fun i => i == 1)
            = RunOutcome.abortedWith "加载b失败" ∧
        FibChip.assign_next_row_run (fibCfg Fp) ⟨0, Assignment.empty Fp⟩
            ⟨⟨ColRef.advice 1, 0⟩, some 1⟩ ⟨⟨ColRef.advice 1, 1⟩, some 2⟩
            false (fun i => i == 1)
            = RunOutcome.abortedWith "拷贝到b失败") ∧
     ((fun i => i == 1) 1 = false → (fun i => i == 1) 2 = false →
        (fun i => i == 1) 3 = true →
        FibChip.assign_first_row_run (fibCfg Fp) ⟨0, Assignment.empty Fp⟩
            (some 1) (some 1) false (fun i => i == 1)
            = RunOutcome.abortedWith "填写下一行b失败" ∧
        FibChip.assign_next_row_run (fibCfg Fp) ⟨0, Assignment.empty Fp⟩
            ⟨⟨ColRef.advice 1, 0⟩, some 1⟩ ⟨⟨ColRef.advice 1, 1⟩, some 2⟩
            false (fun i => i == 1)
            = RunOutcome.abortedWith "填写下一行b失败")) :=
  ⟨rfl, C7_failure_behaviour Fp (fibCfg Fp) ⟨0, Assignment.empty Fp⟩
    (some 1) (some 1) ⟨⟨ColRef.advice 1, 0⟩, some 1⟩
    ⟨⟨ColRef.advice 1, 1⟩, some 2⟩ (fun i => i == 1) rfl⟩

end Halo2Fib
